import Mathlib

/-!
Shallow embedding of the `rust-coding-challenge` payments engine
(`src/account.rs`, `src/engine.rs`).

Monetary amounts (`f64` in the source) are modelled as exact rationals `ℚ`;
the specification leaves the numeric representation to the implementer and
all verified properties concern the control flow and additive arithmetic of
the operations, not floating-point rounding.

Hash maps from transaction ids to amounts are modelled as functions
`TransactionId → Option ℚ` with pointwise insert/remove, matching the
`HashMap::insert` / `HashMap::remove` calls of the source.
-/

/-- `TransactionId` (defined in the crate's `transaction` module; an unsigned
integer per the spec). Modelled as `Nat`. -/
abbrev TransactionId := Nat

/-- `pub type ClientId = u16;` modelled as `Nat`. -/
abbrev ClientId := Nat

/-- A `HashMap<TransactionId, f64>` modelled extensionally. -/
def TxMap := TransactionId → Option ℚ

/-- `HashMap::new()` -/
def TxMap.empty : TxMap := fun _ => none

/-- `HashMap::insert(k, v)` (last write wins). -/
def TxMap.insert (m : TxMap) (k : TransactionId) (v : ℚ) : TxMap :=
  fun k' => if k' = k then some v else m k'

/-- `HashMap::remove(&k)` -/
def TxMap.remove (m : TxMap) (k : TransactionId) : TxMap :=
  fun k' => if k' = k then none else m k'

/-- `struct BasicAccount` from `src/account.rs`: balances, lock flag, the
transaction log of open (not-currently-disputed) deposit/withdrawal amounts,
and the map of active disputes. -/
structure BasicAccount where
  client_id : ClientId
  available : ℚ
  held : ℚ
  locked : Bool
  transaction_log : TxMap
  active_disputes : TxMap

/-- `BasicAccount::new(client_id)`: zero balances, unlocked, empty maps. -/
def BasicAccount.new (client_id : ClientId) : BasicAccount :=
  { client_id := client_id
    available := 0
    held := 0
    locked := false
    transaction_log := TxMap.empty
    active_disputes := TxMap.empty }

/-- `BasicAccount::deposit`: `available += amount`, record
`transaction_log[id] = amount`. -/
def BasicAccount.deposit (a : BasicAccount) (transaction_id : TransactionId)
    (amount : ℚ) : BasicAccount :=
  { a with
    available := a.available + amount
    transaction_log := a.transaction_log.insert transaction_id amount }

/-- `BasicAccount::withdraw`: if `available >= amount`, subtract and record
`transaction_log[id] = -amount`; otherwise do nothing. -/
def BasicAccount.withdraw (a : BasicAccount) (transaction_id : TransactionId)
    (amount : ℚ) : BasicAccount :=
  if a.available ≥ amount then
    { a with
      available := a.available - amount
      transaction_log := a.transaction_log.insert transaction_id (-amount) }
  else a

/-- `BasicAccount::dispute`: if the id is in the transaction log, move its
signed amount to `active_disputes` and shift it from available to held. -/
def BasicAccount.dispute (a : BasicAccount) (transaction_id : TransactionId) :
    BasicAccount :=
  match a.transaction_log transaction_id with
  | some amount =>
      { a with
        transaction_log := a.transaction_log.remove transaction_id
        active_disputes := a.active_disputes.insert transaction_id amount
        available := a.available - amount
        held := a.held + amount }
  | none => a

/-- `BasicAccount::resolve`: if the id is actively disputed, remove it and
shift the amount back from held to available. -/
def BasicAccount.resolve (a : BasicAccount) (transaction_id : TransactionId) :
    BasicAccount :=
  match a.active_disputes transaction_id with
  | some amount =>
      { a with
        active_disputes := a.active_disputes.remove transaction_id
        held := a.held - amount
        available := a.available + amount }
  | none => a

/-- `BasicAccount::chargeback`: if the id is actively disputed, remove it,
release the held amount and lock the account. -/
def BasicAccount.chargeback (a : BasicAccount) (transaction_id : TransactionId) :
    BasicAccount :=
  match a.active_disputes transaction_id with
  | some amount =>
      { a with
        active_disputes := a.active_disputes.remove transaction_id
        held := a.held - amount
        locked := true }
  | none => a

/-- `BasicAccount::get_total_funds`: `available + held`. -/
def BasicAccount.get_total_funds (a : BasicAccount) : ℚ :=
  a.available + a.held

/-- `BasicAccount::get_available_funds` -/
def BasicAccount.get_available_funds (a : BasicAccount) : ℚ :=
  a.available

/-- `BasicAccount::get_held_funds` -/
def BasicAccount.get_held_funds (a : BasicAccount) : ℚ :=
  a.held

/-- `BasicAccount::is_locked` -/
def BasicAccount.is_locked (a : BasicAccount) : Bool :=
  a.locked

/-- One account-level operation, for reasoning about sequences of calls on a
single `BasicAccount`. -/
inductive AccountOp where
  | deposit (transaction_id : TransactionId) (amount : ℚ)
  | withdraw (transaction_id : TransactionId) (amount : ℚ)
  | dispute (transaction_id : TransactionId)
  | resolve (transaction_id : TransactionId)
  | chargeback (transaction_id : TransactionId)

/-- Apply one operation to an account (dispatch to the matching method). -/
def BasicAccount.applyOp (a : BasicAccount) : AccountOp → BasicAccount
  | .deposit id amt => a.deposit id amt
  | .withdraw id amt => a.withdraw id amt
  | .dispute id => a.dispute id
  | .resolve id => a.resolve id
  | .chargeback id => a.chargeback id

/-- Run a finite sequence of operations left to right. -/
def BasicAccount.run (a : BasicAccount) (ops : List AccountOp) : BasicAccount :=
  ops.foldl BasicAccount.applyOp a

/-- Claim C1: disputing a transaction_id present in `open_entries` with
signed amount `m` removes the entry, inserts the same signed amount into
`disputed_entries`, decreases `available` by `m` and increases `held` by
`m`; in the scenario deposit(0,5), withdraw(1,3), dispute(1) the account
reaches available = 5 and held = -3, and resolve(1) then yields
available = 2 and held = 0. -/
theorem dispute_moves_entry_and_scenario :
    (∀ (a : BasicAccount) (id : TransactionId) (m : ℚ),
      a.transaction_log id = some m →
      a.dispute id =
        { a with
          transaction_log := a.transaction_log.remove id
          active_disputes := a.active_disputes.insert id m
          available := a.available - m
          held := a.held + m }) ∧
    (((BasicAccount.new 0).deposit 0 5 |>.withdraw 1 3 |>.dispute 1
        |>.get_available_funds) = 5 ∧
     ((BasicAccount.new 0).deposit 0 5 |>.withdraw 1 3 |>.dispute 1
        |>.get_held_funds) = -3 ∧
     ((BasicAccount.new 0).deposit 0 5 |>.withdraw 1 3 |>.dispute 1
        |>.resolve 1 |>.get_available_funds) = 2 ∧
     ((BasicAccount.new 0).deposit 0 5 |>.withdraw 1 3 |>.dispute 1
        |>.resolve 1 |>.get_held_funds) = 0) := by
  constructor
  · intro a id m h
    unfold BasicAccount.dispute
    rw [h]
  · refine ⟨?_, ?_, ?_, ?_⟩ <;>
      norm_num [BasicAccount.new, BasicAccount.deposit, BasicAccount.withdraw,
        BasicAccount.dispute, BasicAccount.resolve, BasicAccount.get_available_funds,
        BasicAccount.get_held_funds, TxMap.empty, TxMap.insert, TxMap.remove]

/-- Witness for C1: the dispute equation applied to the concrete account
obtained by deposit(0,5) then withdraw(1,3), at transaction_id 1 whose
logged signed amount is -3. -/
theorem dispute_moves_entry_witness :
    ((BasicAccount.new 0).deposit 0 5 |>.withdraw 1 3).dispute 1 =
      { (BasicAccount.new 0).deposit 0 5 |>.withdraw 1 3 with
        transaction_log :=
          ((BasicAccount.new 0).deposit 0 5 |>.withdraw 1 3).transaction_log.remove 1
        active_disputes :=
          ((BasicAccount.new 0).deposit 0 5 |>.withdraw 1 3).active_disputes.insert 1 (-3)
        available :=
          ((BasicAccount.new 0).deposit 0 5 |>.withdraw 1 3).available - (-3)
        held :=
          ((BasicAccount.new 0).deposit 0 5 |>.withdraw 1 3).held + (-3) } :=
  dispute_moves_entry_and_scenario.1 _ 1 (-3) (by
    norm_num [BasicAccount.new, BasicAccount.deposit, BasicAccount.withdraw,
      TxMap.empty, TxMap.insert])

/-- Claim C3: a withdrawal of an amount strictly greater than the available
funds changes nothing: the account is returned unchanged, no entry is
recorded for the transaction_id, and (when the id has no prior log entry) a
later dispute of that id is a no-op. -/
theorem withdraw_insufficient_noop (a : BasicAccount) (id : TransactionId)
    (amount : ℚ) (h : a.available < amount) :
    a.withdraw id amount = a ∧
    (a.withdraw id amount).transaction_log id = a.transaction_log id ∧
    (a.transaction_log id = none →
      (a.withdraw id amount).dispute id = a.withdraw id amount) := by
  have hw : a.withdraw id amount = a := by
    unfold BasicAccount.withdraw
    rw [if_neg (not_le.mpr h)]
  refine ⟨hw, by rw [hw], fun hlog => ?_⟩
  rw [hw]
  unfold BasicAccount.dispute
  rw [hlog]

/-- Witness for C3: withdrawing 3 from a fresh account (available 0) is a
no-op and the subsequent dispute of transaction_id 1 is also a no-op. -/
theorem withdraw_insufficient_noop_witness :
    (BasicAccount.new 0).withdraw 1 3 = BasicAccount.new 0 ∧
    ((BasicAccount.new 0).withdraw 1 3).transaction_log 1 =
      (BasicAccount.new 0).transaction_log 1 ∧
    ((BasicAccount.new 0).transaction_log 1 = none →
      (((BasicAccount.new 0).withdraw 1 3).dispute 1 =
        (BasicAccount.new 0).withdraw 1 3)) :=
  withdraw_insufficient_noop (BasicAccount.new 0) 1 3 (by
    norm_num [BasicAccount.new])

/-- Claim C4: the per-transaction state machine is one-shot. Dispute fires
only when the id is in the open log, resolve and chargeback only when it is
actively disputed, and each is a no-op otherwise; disputing twice equals
disputing once; resolve never returns the entry to the open log, so a
resolved id (with no open entry) cannot be disputed again. -/
theorem transaction_state_machine_one_shot :
    (∀ (a : BasicAccount) (id : TransactionId),
      a.transaction_log id = none → a.dispute id = a) ∧
    (∀ (a : BasicAccount) (id : TransactionId),
      a.active_disputes id = none → a.resolve id = a) ∧
    (∀ (a : BasicAccount) (id : TransactionId),
      a.active_disputes id = none → a.chargeback id = a) ∧
    (∀ (a : BasicAccount) (id : TransactionId),
      (a.dispute id).dispute id = a.dispute id) ∧
    (∀ (a : BasicAccount) (id : TransactionId),
      (a.resolve id).transaction_log = a.transaction_log) ∧
    (∀ (a : BasicAccount) (id : TransactionId),
      a.transaction_log id = none →
      (a.resolve id).dispute id = a.resolve id) := by
  have hdis : ∀ (a : BasicAccount) (id : TransactionId),
      a.transaction_log id = none → a.dispute id = a := by
    intro a id h
    unfold BasicAccount.dispute
    rw [h]
  have hres : ∀ (a : BasicAccount) (id : TransactionId),
      a.active_disputes id = none → a.resolve id = a := by
    intro a id h
    unfold BasicAccount.resolve
    rw [h]
  have hresl : ∀ (a : BasicAccount) (id : TransactionId),
      (a.resolve id).transaction_log = a.transaction_log := by
    intro a id
    unfold BasicAccount.resolve
    cases h : a.active_disputes id <;> rfl
  refine ⟨hdis, hres, ?_, ?_, hresl, ?_⟩
  · intro a id h
    unfold BasicAccount.chargeback
    rw [h]
  · intro a id
    cases h : a.transaction_log id with
    | none => rw [hdis a id h, hdis a id h]
    | some m =>
        apply hdis
        unfold BasicAccount.dispute
        rw [h]
        simp [TxMap.remove]
  · intro a id h
    apply hdis
    rw [hresl, h]

/-- Witness for C4: on a concrete account holding a single disputed deposit,
the conditional parts of the one-shot property hold at transaction_id 1,
which has no entry in either map. -/
theorem transaction_state_machine_one_shot_witness :
    (((BasicAccount.new 0).deposit 0 2).dispute 0).dispute 1 =
      ((BasicAccount.new 0).deposit 0 2).dispute 0 ∧
    (((BasicAccount.new 0).deposit 0 2).dispute 0).resolve 1 =
      ((BasicAccount.new 0).deposit 0 2).dispute 0 ∧
    (((BasicAccount.new 0).deposit 0 2).dispute 0).chargeback 1 =
      ((BasicAccount.new 0).deposit 0 2).dispute 0 :=
  ⟨transaction_state_machine_one_shot.1 _ 1 (by
      norm_num [BasicAccount.new, BasicAccount.deposit, BasicAccount.dispute,
        TxMap.empty, TxMap.insert, TxMap.remove]),
   transaction_state_machine_one_shot.2.1 _ 1 (by
      norm_num [BasicAccount.new, BasicAccount.deposit, BasicAccount.dispute,
        TxMap.empty, TxMap.insert, TxMap.remove]),
   transaction_state_machine_one_shot.2.2.1 _ 1 (by
      norm_num [BasicAccount.new, BasicAccount.deposit, BasicAccount.dispute,
        TxMap.empty, TxMap.insert, TxMap.remove])⟩

/-- Claim C5: charging back an actively disputed id removes the entry,
decreases `held` by its signed amount and locks the account, leaving
`available` and the transaction log unchanged, and changing no disputed
entry other than the removed one; a chargeback of an id that is not
actively disputed is a no-op. -/
theorem chargeback_spec :
    (∀ (a : BasicAccount) (id : TransactionId) (m : ℚ),
      a.active_disputes id = some m →
      a.chargeback id =
        { a with
          active_disputes := a.active_disputes.remove id
          held := a.held - m
          locked := true }) ∧
    (∀ (a : BasicAccount) (id k : TransactionId) (m : ℚ),
      a.active_disputes id = some m → k ≠ id →
      (a.chargeback id).active_disputes k = a.active_disputes k) ∧
    (∀ (a : BasicAccount) (id : TransactionId),
      a.active_disputes id = none → a.chargeback id = a) := by
  have hmain : ∀ (a : BasicAccount) (id : TransactionId) (m : ℚ),
      a.active_disputes id = some m →
      a.chargeback id =
        { a with
          active_disputes := a.active_disputes.remove id
          held := a.held - m
          locked := true } := by
    intro a id m h
    unfold BasicAccount.chargeback
    rw [h]
  refine ⟨hmain, ?_, ?_⟩
  · intro a id k m h hk
    rw [hmain a id m h]
    simp [TxMap.remove, hk]
  · intro a id h
    unfold BasicAccount.chargeback
    rw [h]

/-- Witness for C5: chargeback of the disputed deposit 0 (amount 2) on a
concrete account removes it, reduces held by 2 and locks the account, and
chargeback of the undisputed id 1 is a no-op. -/
theorem chargeback_spec_witness :
    (((BasicAccount.new 0).deposit 0 2).dispute 0).chargeback 0 =
      { ((BasicAccount.new 0).deposit 0 2).dispute 0 with
        active_disputes :=
          (((BasicAccount.new 0).deposit 0 2).dispute 0).active_disputes.remove 0
        held := (((BasicAccount.new 0).deposit 0 2).dispute 0).held - 2
        locked := true } ∧
    (((BasicAccount.new 0).deposit 0 2).dispute 0).chargeback 1 =
      ((BasicAccount.new 0).deposit 0 2).dispute 0 :=
  ⟨chargeback_spec.1 _ 0 2 (by
      norm_num [BasicAccount.new, BasicAccount.deposit, BasicAccount.dispute,
        TxMap.empty, TxMap.insert, TxMap.remove]),
   chargeback_spec.2.2 _ 1 (by
      norm_num [BasicAccount.new, BasicAccount.deposit, BasicAccount.dispute,
        TxMap.empty, TxMap.insert, TxMap.remove])⟩

/-- An account in which no transaction_id is a key of both the open
transaction log and the active-disputes map. -/
def DisjointLogs (a : BasicAccount) : Prop :=
  ∀ id : TransactionId, a.transaction_log id = none ∨ a.active_disputes id = none

/-- A transaction_id with no entry in either map of the account. -/
def NoEntry (a : BasicAccount) (id : TransactionId) : Prop :=
  a.transaction_log id = none ∧ a.active_disputes id = none

/-- An operation respecting the spec's input invariant at a given state:
each deposit/withdrawal carries a globally fresh transaction_id (one not
currently known to the account); dispute/resolve/chargeback may reference
anything. -/
def FreshOp (a : BasicAccount) : AccountOp → Prop
  | .deposit id _ => NoEntry a id
  | .withdraw id _ => NoEntry a id
  | .dispute _ => True
  | .resolve _ => True
  | .chargeback _ => True

/-- A sequence of operations each of which is fresh at the state where it
executes. -/
def ValidSeq : BasicAccount → List AccountOp → Prop
  | _, [] => True
  | a, op :: ops => FreshOp a op ∧ ValidSeq (a.applyOp op) ops

instance instDecidableNoEntry (a : BasicAccount) (id : TransactionId) :
    Decidable (NoEntry a id) :=
  inferInstanceAs (Decidable (_ ∧ _))

instance instDecidableFreshOp (a : BasicAccount) :
    (op : AccountOp) → Decidable (FreshOp a op)
  | .deposit id _ => inferInstanceAs (Decidable (NoEntry a id))
  | .withdraw id _ => inferInstanceAs (Decidable (NoEntry a id))
  | .dispute _ => .isTrue trivial
  | .resolve _ => .isTrue trivial
  | .chargeback _ => .isTrue trivial

instance instDecidableValidSeq :
    (a : BasicAccount) → (ops : List AccountOp) → Decidable (ValidSeq a ops)
  | _, [] => .isTrue trivial
  | a, op :: ops =>
      have : Decidable (ValidSeq (a.applyOp op) ops) :=
        instDecidableValidSeq (a.applyOp op) ops
      inferInstanceAs (Decidable (_ ∧ _))

/-- A fresh operation applied to an account with disjoint maps keeps the
maps disjoint. -/
theorem applyOp_disjoint (a : BasicAccount) (op : AccountOp)
    (hd : DisjointLogs a) (hf : FreshOp a op) :
    DisjointLogs (a.applyOp op) := by
  cases op with
  | deposit id amt =>
      intro k
      simp only [BasicAccount.applyOp, BasicAccount.deposit, TxMap.insert]
      by_cases hk : k = id
      · subst hk
        simp [hf.2]
      · simp [hk, hd k]
  | withdraw id amt =>
      intro k
      simp only [BasicAccount.applyOp, BasicAccount.withdraw]
      split
      · simp only [TxMap.insert]
        by_cases hk : k = id
        · subst hk
          simp [hf.2]
        · simp [hk, hd k]
      · exact hd k
  | dispute id =>
      intro k
      simp only [BasicAccount.applyOp, BasicAccount.dispute]
      cases h : a.transaction_log id with
      | none => exact hd k
      | some m =>
          simp only [TxMap.remove, TxMap.insert]
          by_cases hk : k = id
          · simp [hk]
          · simp [hk, hd k]
  | resolve id =>
      intro k
      simp only [BasicAccount.applyOp, BasicAccount.resolve]
      cases h : a.active_disputes id with
      | none => exact hd k
      | some m =>
          simp only [TxMap.remove]
          by_cases hk : k = id
          · simp [hk]
          · simp [hk, hd k]
  | chargeback id =>
      intro k
      simp only [BasicAccount.applyOp, BasicAccount.chargeback]
      cases h : a.active_disputes id with
      | none => exact hd k
      | some m =>
          simp only [TxMap.remove]
          by_cases hk : k = id
          · simp [hk]
          · simp [hk, hd k]

/-- Running a valid sequence from an account with disjoint maps keeps the
maps disjoint. -/
theorem run_disjoint :
    ∀ (ops : List AccountOp) (a : BasicAccount),
      DisjointLogs a → ValidSeq a ops → DisjointLogs (a.run ops)
  | [], _, hd, _ => hd
  | op :: ops, a, hd, hv =>
      run_disjoint ops (a.applyOp op) (applyOp_disjoint a op hd hv.1) hv.2

/-- Counterexample to C2 as stated: with a reused transaction_id the
sequence deposit(0,1), dispute(0), deposit(0,1) reaches a state where id 0
is a key of both `open_entries` and `disputed_entries`. -/
theorem both_maps_after_id_reuse :
    (((BasicAccount.new 0).run
        [.deposit 0 1, .dispute 0, .deposit 0 1]).transaction_log 0).isSome = true ∧
    (((BasicAccount.new 0).run
        [.deposit 0 1, .dispute 0, .deposit 0 1]).active_disputes 0).isSome = true := by
  constructor <;> rfl

/-- Claim C2 (amended): for every sequence of operations from a fresh
account in which each deposit/withdrawal uses a transaction_id not
currently present in either map (the spec's globally-unique-id input
invariant), each transaction_id is a key of at most one of the two maps in
the resulting state, and the total-funds accessor equals available plus
held there. -/
theorem disjoint_maps_and_total_funds (cid : ClientId) (ops : List AccountOp)
    (hv : ValidSeq (BasicAccount.new cid) ops) :
    DisjointLogs ((BasicAccount.new cid).run ops) ∧
    ((BasicAccount.new cid).run ops).get_total_funds =
      ((BasicAccount.new cid).run ops).get_available_funds +
        ((BasicAccount.new cid).run ops).get_held_funds := by
  refine ⟨run_disjoint ops (BasicAccount.new cid) (fun k => Or.inl rfl) hv, rfl⟩

/-- Witness for C2 (amended): the valid sequence deposit(0,5), dispute(0),
resolve(0), deposit(1,4), dispute(1), chargeback(1) from a fresh account
keeps the two maps disjoint and total = available + held. -/
theorem disjoint_maps_and_total_funds_witness :
    ValidSeq (BasicAccount.new 0)
      [.deposit 0 5, .dispute 0, .resolve 0, .deposit 1 4, .dispute 1,
        .chargeback 1] ∧
    (DisjointLogs ((BasicAccount.new 0).run
        [.deposit 0 5, .dispute 0, .resolve 0, .deposit 1 4, .dispute 1,
          .chargeback 1]) ∧
      ((BasicAccount.new 0).run
        [.deposit 0 5, .dispute 0, .resolve 0, .deposit 1 4, .dispute 1,
          .chargeback 1]).get_total_funds =
        ((BasicAccount.new 0).run
          [.deposit 0 5, .dispute 0, .resolve 0, .deposit 1 4, .dispute 1,
            .chargeback 1]).get_available_funds +
          ((BasicAccount.new 0).run
            [.deposit 0 5, .dispute 0, .resolve 0, .deposit 1 4, .dispute 1,
              .chargeback 1]).get_held_funds) :=
  ⟨by decide, disjoint_maps_and_total_funds 0 _ (by decide)⟩

/-- Counterexample to C6 as stated: from the reachable state with available
= -1 (deposit(0,1), withdraw(1,1), dispute(0)), depositing 5 and then
withdrawing 5 does not restore available, because the withdrawal guard
fails (available before the pair was negative). -/
theorem deposit_withdraw_pair_counterexample :
    0 ≤ (5 : ℚ) ∧
    ¬ ((((((BasicAccount.new 0).deposit 0 1).withdraw 1 1).dispute 0).deposit 2 5).withdraw
          3 5).available =
        ((((BasicAccount.new 0).deposit 0 1).withdraw 1 1).dispute 0).available := by
  refine ⟨by norm_num, ?_⟩
  norm_num [BasicAccount.new, BasicAccount.deposit, BasicAccount.withdraw,
    BasicAccount.dispute, TxMap.empty, TxMap.insert, TxMap.remove]

/-- Claim C6 (amended): for every account whose available funds are
non-negative and every non-negative amount, depositing the amount and then
withdrawing it returns available to its pre-deposit value and leaves held
unchanged. -/
theorem deposit_then_withdraw_cancels (a : BasicAccount)
    (id1 id2 : TransactionId) (amt : ℚ) (_hamt : 0 ≤ amt)
    (hav : 0 ≤ a.available) :
    ((a.deposit id1 amt).withdraw id2 amt).available = a.available ∧
    ((a.deposit id1 amt).withdraw id2 amt).held = a.held := by
  have hg : (a.deposit id1 amt).available ≥ amt := by
    simp only [BasicAccount.deposit]
    linarith
  unfold BasicAccount.withdraw
  rw [if_pos hg]
  simp [BasicAccount.deposit]

/-- Witness for C6 (amended): on a fresh account (available 0), depositing
2 and withdrawing 2 restores available to 0 and leaves held at 0. -/
theorem deposit_then_withdraw_cancels_witness :
    0 ≤ (2 : ℚ) ∧ 0 ≤ (BasicAccount.new 0).available ∧
    (((BasicAccount.new 0).deposit 10 2).withdraw 11 2).available =
      (BasicAccount.new 0).available ∧
    (((BasicAccount.new 0).deposit 10 2).withdraw 11 2).held =
      (BasicAccount.new 0).held :=
  ⟨by norm_num, by norm_num [BasicAccount.new],
   (deposit_then_withdraw_cancels (BasicAccount.new 0) 10 11 2 (by norm_num)
      (by norm_num [BasicAccount.new])).1,
   (deposit_then_withdraw_cancels (BasicAccount.new 0) 10 11 2 (by norm_num)
      (by norm_num [BasicAccount.new])).2⟩

/-- Enum `TransactionType`. Modelled from the spec: the crate's
`transaction` module is not among the given files; §3 lists the event kinds
Deposit, Withdrawal, Dispute, Resolve, Chargeback. -/
inductive TransactionType where
  | Deposit
  | Withdrawal
  | Dispute
  | Resolve
  | Chargeback

/-- Record `Transaction`. Modelled from the spec: the crate's `transaction`
module is not among the given files; §3 gives the fields kind, client_id,
transaction_id and optional amount, matching the field names `engine.rs`
accesses. -/
structure Transaction where
  transaction_type : TransactionType
  client_id : ClientId
  transaction_id : TransactionId
  amount : Option ℚ

/-- Struct `TransactionEngine` from `src/engine.rs`: the map of client
accounts, modelled extensionally. -/
structure TransactionEngine where
  accounts : ClientId → Option BasicAccount

/-- `TransactionEngine::new()` -/
def TransactionEngine.new : TransactionEngine :=
  { accounts := fun _ => none }

/-- `TransactionEngine::execute`: look up or lazily create the client's
account, then dispatch on the transaction type; deposits and withdrawals
with no amount do nothing to the account. -/
def TransactionEngine.execute (e : TransactionEngine) (t : Transaction) :
    TransactionEngine :=
  let account := (e.accounts t.client_id).getD (BasicAccount.new t.client_id)
  let updated :=
    match t.transaction_type with
    | .Deposit =>
        match t.amount with
        | some amount => account.deposit t.transaction_id amount
        | none => account
    | .Withdrawal =>
        match t.amount with
        | some amount => account.withdraw t.transaction_id amount
        | none => account
    | .Dispute => account.dispute t.transaction_id
    | .Resolve => account.resolve t.transaction_id
    | .Chargeback => account.chargeback t.transaction_id
  { accounts := fun c => if c = t.client_id then some updated else e.accounts c }

/-- Claim C7: a Deposit or Withdrawal with no amount leaves the state of
every client's account unchanged (an absent account counts as a fresh
zero-balance account, since the engine creates accounts lazily); when the
amount is present the engine stores the result of the matching account
operation applied at (transaction_id, amount). -/
theorem execute_missing_amount_dropped :
    (∀ (e : TransactionEngine) (t : Transaction) (c : ClientId),
      t.amount = none →
      (t.transaction_type = TransactionType.Deposit ∨
        t.transaction_type = TransactionType.Withdrawal) →
      ((e.execute t).accounts c).getD (BasicAccount.new c) =
        (e.accounts c).getD (BasicAccount.new c)) ∧
    (∀ (e : TransactionEngine) (t : Transaction) (amt : ℚ),
      t.amount = some amt → t.transaction_type = TransactionType.Deposit →
      (e.execute t).accounts t.client_id =
        some (((e.accounts t.client_id).getD
          (BasicAccount.new t.client_id)).deposit t.transaction_id amt)) ∧
    (∀ (e : TransactionEngine) (t : Transaction) (amt : ℚ),
      t.amount = some amt → t.transaction_type = TransactionType.Withdrawal →
      (e.execute t).accounts t.client_id =
        some (((e.accounts t.client_id).getD
          (BasicAccount.new t.client_id)).withdraw t.transaction_id amt)) := by
  refine ⟨?_, ?_, ?_⟩
  · intro e t c hamt hkind
    rcases hkind with hk | hk <;>
      · simp only [TransactionEngine.execute, hk, hamt]
        by_cases hc : c = t.client_id <;> simp [hc]
  · intro e t amt hamt hk
    simp [TransactionEngine.execute, hk, hamt]
  · intro e t amt hamt hk
    simp [TransactionEngine.execute, hk, hamt]

/-- Witness for C7: executing a Deposit for client 3 with no amount on the
fresh engine leaves client 3's effective account a fresh zero account, and
executing a Deposit of 5 with transaction_id 0 stores the deposited
account. -/
theorem execute_missing_amount_dropped_witness :
    ((TransactionEngine.new.execute
        { transaction_type := TransactionType.Deposit, client_id := 3,
          transaction_id := 0, amount := none }).accounts 3).getD
      (BasicAccount.new 3) =
      ((TransactionEngine.new.accounts 3).getD (BasicAccount.new 3)) ∧
    (TransactionEngine.new.execute
        { transaction_type := TransactionType.Deposit, client_id := 3,
          transaction_id := 0, amount := some 5 }).accounts 3 =
      some (((TransactionEngine.new.accounts 3).getD
        (BasicAccount.new 3)).deposit 0 5) :=
  ⟨execute_missing_amount_dropped.1 TransactionEngine.new
      { transaction_type := TransactionType.Deposit, client_id := 3,
        transaction_id := 0, amount := none } 3 rfl (Or.inl rfl),
   execute_missing_amount_dropped.2.1 TransactionEngine.new
      { transaction_type := TransactionType.Deposit, client_id := 3,
        transaction_id := 0, amount := some 5 } 5 rfl rfl⟩

/-- Claim C8: the locked flag is monotone under every operation, starts
false on a fresh account, and flips from false to true only on a chargeback
whose transaction_id is actively disputed. -/
theorem locked_monotone :
    (∀ (a : BasicAccount) (op : AccountOp),
      a.locked = true → (a.applyOp op).locked = true) ∧
    (∀ cid : ClientId, (BasicAccount.new cid).locked = false) ∧
    (∀ (a : BasicAccount) (op : AccountOp),
      a.locked = false → (a.applyOp op).locked = true →
      ∃ (id : TransactionId) (m : ℚ),
        op = AccountOp.chargeback id ∧ a.active_disputes id = some m) := by
  refine ⟨?_, fun _ => rfl, ?_⟩
  · intro a op h
    cases op with
    | deposit id amt => exact h
    | withdraw id amt =>
        simp only [BasicAccount.applyOp, BasicAccount.withdraw]
        split <;> exact h
    | dispute id =>
        simp only [BasicAccount.applyOp, BasicAccount.dispute]
        cases hl : a.transaction_log id <;> exact h
    | resolve id =>
        simp only [BasicAccount.applyOp, BasicAccount.resolve]
        cases hl : a.active_disputes id <;> exact h
    | chargeback id =>
        simp only [BasicAccount.applyOp, BasicAccount.chargeback]
        cases hl : a.active_disputes id
        · exact h
        · rfl
  · intro a op h0 h1
    cases op with
    | deposit id amt =>
        simp only [BasicAccount.applyOp, BasicAccount.deposit] at h1
        rw [h0] at h1; cases h1
    | withdraw id amt =>
        simp only [BasicAccount.applyOp, BasicAccount.withdraw] at h1
        revert h1
        split <;> · intro h1; rw [h0] at h1; cases h1
    | dispute id =>
        simp only [BasicAccount.applyOp, BasicAccount.dispute] at h1
        revert h1
        cases hl : a.transaction_log id <;> · intro h1; rw [h0] at h1; cases h1
    | resolve id =>
        simp only [BasicAccount.applyOp, BasicAccount.resolve] at h1
        revert h1
        cases hl : a.active_disputes id <;> · intro h1; rw [h0] at h1; cases h1
    | chargeback id =>
        simp only [BasicAccount.applyOp, BasicAccount.chargeback] at h1
        revert h1
        cases hl : a.active_disputes id with
        | none => intro h1; rw [h0] at h1; cases h1
        | some m => intro _; exact ⟨id, m, rfl, hl⟩

/-- Witness for C8: on the concrete locked account reached by deposit(0,2),
dispute(0), chargeback(0), a further deposit leaves the account locked. -/
theorem locked_monotone_witness :
    (((((BasicAccount.new 0).deposit 0 2).dispute 0).chargeback 0).applyOp
        (AccountOp.deposit 1 1)).locked = true :=
  locked_monotone.1 ((((BasicAccount.new 0).deposit 0 2).dispute 0).chargeback 0)
    (AccountOp.deposit 1 1) rfl

/-- Claim C9: no operation is gated by the locked flag: the available and
held funds and both entry maps produced by any operation are the same
whatever the locked flag is set to beforehand. -/
theorem operations_ignore_locked (a : BasicAccount) (op : AccountOp)
    (b : Bool) :
    (({ a with locked := b } : BasicAccount).applyOp op).available =
      (a.applyOp op).available ∧
    (({ a with locked := b } : BasicAccount).applyOp op).held =
      (a.applyOp op).held ∧
    (({ a with locked := b } : BasicAccount).applyOp op).transaction_log =
      (a.applyOp op).transaction_log ∧
    (({ a with locked := b } : BasicAccount).applyOp op).active_disputes =
      (a.applyOp op).active_disputes := by
  cases op with
  | deposit id amt =>
      simp [BasicAccount.applyOp, BasicAccount.deposit]
  | withdraw id amt =>
      simp only [BasicAccount.applyOp, BasicAccount.withdraw]
      split <;> simp
  | dispute id =>
      simp only [BasicAccount.applyOp, BasicAccount.dispute]
      cases hl : a.transaction_log id <;> simp
  | resolve id =>
      simp only [BasicAccount.applyOp, BasicAccount.resolve]
      cases hl : a.active_disputes id <;> simp
  | chargeback id =>
      simp only [BasicAccount.applyOp, BasicAccount.chargeback]
      cases hl : a.active_disputes id <;> simp

/-- Claim C10: available funds are not kept non-negative: for every
positive amount, the sequence deposit(0, amount), withdraw(1, amount),
dispute(0) drives the account's available funds to the negative value
-amount while the account remains unlocked. -/
theorem negative_available_reachable (amt : ℚ) (h : 0 < amt) :
    ((((BasicAccount.new 0).deposit 0 amt).withdraw 1 amt).dispute
        0).get_available_funds = -amt ∧
    ((((BasicAccount.new 0).deposit 0 amt).withdraw 1 amt).dispute
        0).get_available_funds < 0 ∧
    ((((BasicAccount.new 0).deposit 0 amt).withdraw 1 amt).dispute
        0).is_locked = false := by
  have hav : ((((BasicAccount.new 0).deposit 0 amt).withdraw 1 amt).dispute
      0).get_available_funds = -amt := by
    simp [BasicAccount.new, BasicAccount.deposit, BasicAccount.withdraw,
      BasicAccount.dispute, BasicAccount.get_available_funds, TxMap.empty,
      TxMap.insert, TxMap.remove]
  refine ⟨hav, ?_, ?_⟩
  · rw [hav]
    linarith
  · simp [BasicAccount.new, BasicAccount.deposit, BasicAccount.withdraw,
      BasicAccount.dispute, BasicAccount.is_locked, TxMap.empty,
      TxMap.insert, TxMap.remove]

/-- Witness for C10: with amount 1 the sequence reaches available = -1 on
an unlocked account. -/
theorem negative_available_reachable_witness :
    ((((BasicAccount.new 0).deposit 0 1).withdraw 1 1).dispute
        0).get_available_funds = -1 ∧
    ((((BasicAccount.new 0).deposit 0 1).withdraw 1 1).dispute
        0).get_available_funds < 0 ∧
    ((((BasicAccount.new 0).deposit 0 1).withdraw 1 1).dispute
        0).is_locked = false :=
  negative_available_reachable 1 (by norm_num)
